import Mathlib

/-!
Shallow embedding of the context-gating engine of the secure-todo PWA
(src/src/App.tsx): haversine distance, geofence resolution, the visibility
policy, hidden-task counting, task/zone store mutations, the biometric
authentication gate and the localStorage persistence of the task list.
Every definition is translated from the TypeScript source; divergences of
the source from its specification are established as explicit theorems.
-/

namespace SecureTodo

/-- Task category from src/App.tsx. The source uses the Japanese string
literals 個人 / 学校 / 仕事 / その他, rendered here as the constructors
personal / school / work / other. -/
inductive Category
  | personal
  | school
  | work
  | other
  deriving DecidableEq, Repr

/-- The Todo record of src/App.tsx. `showDetail` and `completed` are optional
fields in the source (`showDetail?: boolean`, `completed?: boolean`); an
absent field is `none`. `createdAt` is the ISO timestamp string. -/
structure Todo where
  id : Nat
  title : String
  detail : String
  category : Category
  createdAt : String
  showDetail : Option Bool := none
  completed : Option Bool := none
  deriving DecidableEq, Repr

/-- Zone kind of a registered location: the source union 'home' | 'school' | 'work'. -/
inductive LocationType
  | home
  | school
  | work
  deriving DecidableEq, Repr

/-- The Location record of src/App.tsx (a geofence zone). Coordinates and the
radius are real numbers modelling the source's IEEE doubles. -/
structure Location where
  id : Nat
  name : String
  latitude : ℝ
  longitude : ℝ
  radius : ℝ
  type : LocationType

/-- The derived discrete location state: 'home' | 'school' | 'work' | 'outside'. -/
inductive LocationStatus
  | home
  | school
  | work
  | outside
  deriving DecidableEq, Repr

/-- The cast `loc.type as LocationStatus` performed in handlePositionUpdate:
each zone kind maps to the location status of the same name. -/
def LocationType.toStatus : LocationType → LocationStatus
  | .home => .home
  | .school => .school
  | .work => .work

/-- Two-argument arctangent with the semantics of JavaScript Math.atan2(y, x)
over the reals (signed zeros are not distinguished). -/
noncomputable def atan2 (y x : ℝ) : ℝ :=
  if 0 < x then Real.arctan (y / x)
  else if x < 0 then
    if 0 ≤ y then Real.arctan (y / x) + Real.pi else Real.arctan (y / x) - Real.pi
  else if 0 < y then Real.pi / 2
  else if y < 0 then -(Real.pi / 2)
  else 0

/-- The intermediate value `a` of the haversine formula in calculateDistance:
sin²(Δφ/2) + cos φ1 · cos φ2 · sin²(Δλ/2), with φ = lat·π/180 and
Δφ, Δλ the coordinate differences scaled to radians, exactly as in the source. -/
noncomputable def haversineA (lat1 lon1 lat2 lon2 : ℝ) : ℝ :=
  Real.sin ((lat2 - lat1) * Real.pi / 180 / 2) * Real.sin ((lat2 - lat1) * Real.pi / 180 / 2) +
    Real.cos (lat1 * Real.pi / 180) * Real.cos (lat2 * Real.pi / 180) *
      Real.sin ((lon2 - lon1) * Real.pi / 180 / 2) * Real.sin ((lon2 - lon1) * Real.pi / 180 / 2)

/-- calculateDistance from src/App.tsx: great-circle distance on a sphere of
radius 6371000 m, via `c = 2·atan2(√a, √(1-a))` and `R·c`. Total on all of ℝ⁴
(no error conditions), as in the source. -/
noncomputable def calculateDistance (lat1 lon1 lat2 lon2 : ℝ) : ℝ :=
  6371000 * (2 * atan2 (Real.sqrt (haversineA lat1 lon1 lat2 lon2))
    (Real.sqrt (1 - haversineA lat1 lon1 lat2 lon2)))

/-- The containment test of the resolver loop: the sampled coordinate is
within the zone's radius of its center. -/
abbrev zoneContains (lat lon : ℝ) (loc : Location) : Prop :=
  calculateDistance lat lon loc.latitude loc.longitude ≤ loc.radius

/-- The location-resolution loop of handlePositionUpdate: scan the registered
zones in store order, return the kind of the first zone containing the sample
(the loop breaks at the first match); `outside` when no zone matches. -/
noncomputable def resolveStatus (lat lon : ℝ) : List Location → LocationStatus
  | [] => .outside
  | loc :: rest =>
    if calculateDistance lat lon loc.latitude loc.longitude ≤ loc.radius then
      loc.type.toStatus
    else resolveStatus lat lon rest

/-- isTaskVisible from src/App.tsx. The source closes over the privateMode and
locationStatus state cells; here they are explicit arguments. The source's
`default` switch arm is unreachable (the four constructors are exhaustive). -/
def isTaskVisible (privateMode : Bool) (locationStatus : LocationStatus) (todo : Todo) : Bool :=
  if privateMode then true
  else
    match locationStatus with
    | .home => true
    | .school => todo.category == Category.school || todo.category == Category.other
    | .work => todo.category == Category.work || todo.category == Category.other
    | .outside => todo.category == Category.other

/-- `counts[cat]++` on a category-indexed counter map, as performed by
getHiddenTasksCount. -/
def bump (cat : Category) (counts : Category → Nat) : Category → Nat :=
  fun c => if c = cat then counts c + 1 else counts c

/-- getHiddenTasksCount from src/App.tsx: fold over the todos left to right
(forEach), incrementing the counter of a todo's category whenever the todo is
not visible; all four counters start at 0. -/
def getHiddenTasksCount (privateMode : Bool) (locationStatus : LocationStatus)
    (todos : List Todo) : Category → Nat :=
  todos.foldl
    (fun counts todo =>
      if isTaskVisible privateMode locationStatus todo then counts
      else bump todo.category counts)
    (fun _ => 0)

/-- The environment of one performBiometricAuth run: availability of the
WebAuthn API, the outcomes of the two asynchronous platform calls
(`none` = the promise rejects, `some b` = it resolves with a credential
object whose truthiness is `b`), and the user's answers to the three
window.confirm dialogs of the fallback paths. -/
structure AuthOracle where
  webAuthnAvailable : Bool
  createResult : Option Bool
  getResult : Option Bool
  confirmSimple : Bool
  confirmRetry : Bool
  confirmFinal : Bool
  deriving DecidableEq, Repr

/-- Observable outcome of one performBiometricAuth run: `result` is the
Boolean the source function returns to its caller; `usedStrong` records
whether that return came from a WebAuthn branch (navigator.credentials
create/get succeeding) rather than a window.confirm fallback;
`storesCredential` records whether the run executed the
localStorage.setItem of the credential id in the registration branch. -/
structure AuthTrace where
  result : Bool
  usedStrong : Bool
  storesCredential : Bool
  deriving DecidableEq, Repr

/-- performBiometricAuth from src/App.tsx. `isSetup` is the comparison of the
`action` argument with the registration string; `credentialIdStored` and
`rawIdStored` reflect the two localStorage keys. Control flow of the source:
with WebAuthn available, the registration branch runs create (a rejection is
caught by the outer catch and leads to the two-confirm error fallback; a
falsy credential falls through to the simple confirm); the verification
branch throws when the raw id is missing, otherwise runs get analogously;
in every remaining case the simple confirm decides. -/
def performBiometricAuth (isSetup credentialIdStored rawIdStored : Bool)
    (o : AuthOracle) : AuthTrace :=
  if o.webAuthnAvailable then
    if isSetup && !credentialIdStored then
      match o.createResult with
      | none => ⟨o.confirmRetry && o.confirmFinal, false, false⟩
      | some true => ⟨true, true, true⟩
      | some false => ⟨o.confirmSimple, false, false⟩
    else if credentialIdStored then
      if !rawIdStored then ⟨o.confirmRetry && o.confirmFinal, false, false⟩
      else
        match o.getResult with
        | none => ⟨o.confirmRetry && o.confirmFinal, false, false⟩
        | some true => ⟨true, true, false⟩
        | some false => ⟨o.confirmSimple, false, false⟩
    else ⟨o.confirmSimple, false, false⟩
  else ⟨o.confirmSimple, false, false⟩

/-- The pages of the app relevant to the engine (PageType in the source). -/
inductive PageType
  | main
  | addTask
  | locations
  | account
  | settings
  deriving DecidableEq, Repr

/-- The engine-relevant React state cells of the App component, plus the two
localStorage credential keys written and removed by the auth code. -/
structure AppState where
  todos : List Todo
  registeredLocations : List Location
  privateMode : Bool
  biometricEnabled : Bool
  credentialIdStored : Bool
  rawIdStored : Bool
  currentPage : PageType

/-- The localStorage writes performed inside a performBiometricAuth run
(storing the credential id and raw id in the registration branch). -/
def applyAuthSideEffects (s : AppState) (t : AuthTrace) : AppState :=
  if t.storesCredential then { s with credentialIdStored := true, rawIdStored := true } else s

/-- enableBiometric from src/App.tsx: run performBiometricAuth with the
registration action; on success set biometricEnabled. -/
def enableBiometric (s : AppState) (o : AuthOracle) : AppState :=
  let t := performBiometricAuth true s.credentialIdStored s.rawIdStored o
  let s' := applyAuthSideEffects s t
  if t.result then { s' with biometricEnabled := true } else s'

/-- togglePrivateMode from src/App.tsx: when private mode is on, simply turn
it off; when off, require biometricEnabled (otherwise alert and route to the
settings page) and turn it on only if performBiometricAuth succeeds. -/
def togglePrivateMode (s : AppState) (o : AuthOracle) : AppState :=
  if s.privateMode then { s with privateMode := false }
  else if s.biometricEnabled then
    let t := performBiometricAuth false s.credentialIdStored s.rawIdStored o
    let s' := applyAuthSideEffects s t
    if t.result then { s' with privateMode := true } else s'
  else { s with currentPage := .settings }

/-- registerCurrentLocation from src/App.tsx: validation (a current
coordinate and a non-empty name), then the auth guard (routing to settings
when biometric is not enabled), then append the new zone; `now` models
Date.now(). -/
def registerCurrentLocation (s : AppState) (currentLocation : Option (ℝ × ℝ))
    (newLocationName : String) (newLocationType : LocationType)
    (newLocationRadius : ℝ) (now : Nat) (o : AuthOracle) : AppState :=
  match currentLocation with
  | none => s
  | some c =>
    if newLocationName = "" then s
    else if s.biometricEnabled then
      let t := performBiometricAuth false s.credentialIdStored s.rawIdStored o
      let s' := applyAuthSideEffects s t
      if t.result then
        { s' with registeredLocations :=
            s'.registeredLocations ++
              [⟨now, newLocationName, c.1, c.2, newLocationRadius, newLocationType⟩] }
      else s'
    else { s with currentPage := .settings }

/-- deleteLocation from src/App.tsx: the auth guard (routing to settings when
biometric is not enabled), then filter the zone with the given id out of the
store. -/
def deleteLocation (s : AppState) (id : Nat) (o : AuthOracle) : AppState :=
  if s.biometricEnabled then
    let t := performBiometricAuth false s.credentialIdStored s.rawIdStored o
    let s' := applyAuthSideEffects s t
    if t.result then
      { s' with registeredLocations := s'.registeredLocations.filter (fun loc => loc.id != id) }
    else s'
  else { s with currentPage := .settings }

/-- The credential-reset onClick handler of the settings page: after the
confirm dialog, remove both localStorage credential keys and disable
biometric. Note that the handler does not touch the privateMode state cell. -/
def resetCredential (s : AppState) (confirm : Bool) : AppState :=
  if confirm then
    { s with credentialIdStored := false, rawIdStored := false, biometricEnabled := false }
  else s

/-- User-driven events of the auth-gate state machine. -/
inductive Event
  | enableBiometric (o : AuthOracle)
  | togglePrivateMode (o : AuthOracle)
  | registerLocation (c : Option (ℝ × ℝ)) (name : String) (ltype : LocationType)
      (radius : ℝ) (now : Nat) (o : AuthOracle)
  | deleteLocation (id : Nat) (o : AuthOracle)
  | resetCredential (confirm : Bool)

/-- One step of the app on a user event. -/
def step (s : AppState) : Event → AppState
  | .enableBiometric o => SecureTodo.enableBiometric s o
  | .togglePrivateMode o => SecureTodo.togglePrivateMode s o
  | .registerLocation c name ltype radius now o =>
      registerCurrentLocation s c name ltype radius now o
  | .deleteLocation id o => SecureTodo.deleteLocation s id o
  | .resetCredential confirm => SecureTodo.resetCredential s confirm

/-- Run a sequence of events from a state. -/
def run (s : AppState) (es : List Event) : AppState := es.foldl step s

/-- The initial values of the App component's state cells (before the
load-on-init effect). -/
def initState : AppState :=
  { todos := []
    registeredLocations := []
    privateMode := false
    biometricEnabled := false
    credentialIdStored := false
    rawIdStored := false
    currentPage := .main }

/-- toggleComplete from src/App.tsx: map over the todos; for the todo whose
id matches, replace `completed` with the negation of its JavaScript
truthiness (`!undefined = true`), leaving every other field and every other
todo unchanged. -/
def toggleComplete (todos : List Todo) (id : Nat) : List Todo :=
  todos.map fun todo =>
    if todo.id = id then { todo with completed := some (!(todo.completed.getD false)) }
    else todo

/-- addTodo from src/App.tsx: when the trimmed input title is non-empty,
append a new todo (id from Date.now(), createdAt the ISO timestamp,
showDetail and completed explicitly false); otherwise do nothing. -/
def addTodoList (todos : List Todo) (now : Nat) (createdAt : String)
    (inputTitle inputDetail : String) (category : Category) : List Todo :=
  if inputTitle.trim ≠ "" then
    todos ++ [{ id := now, title := inputTitle, detail := inputDetail,
                category := category, createdAt := createdAt,
                showDetail := some false, completed := some false }]
  else todos

/-- saveEdit from src/App.tsx: when the trimmed edit title is non-empty and
editingTodo is truthy (a non-null, non-zero id), rewrite the title, detail
and category of the matching todo; otherwise do nothing. -/
def saveEditList (todos : List Todo) (editingTodo : Nat)
    (editTitle editDetail : String) (editCategory : Category) : List Todo :=
  if editTitle.trim ≠ "" ∧ editingTodo ≠ 0 then
    todos.map fun todo =>
      if todo.id = editingTodo then
        { todo with title := editTitle, detail := editDetail, category := editCategory }
      else todo
  else todos

/-- deleteTodo from src/App.tsx: after the confirm dialog, filter the todo
with the given id out of the store; removal of an absent id is a no-op. -/
def deleteTodo (todos : List Todo) (id : Nat) (confirm : Bool) : List Todo :=
  if confirm then todos.filter (fun todo => todo.id != id) else todos

/-- deleteAllCompleted from src/App.tsx: when no task is completed, do
nothing (alert only); otherwise, after the confirm dialog, keep only the
tasks that are not completed (JavaScript truthiness of the optional field). -/
def deleteAllCompletedList (todos : List Todo) (confirm : Bool) : List Todo :=
  if (todos.filter (fun todo => todo.completed.getD false)).length = 0 then todos
  else if confirm then todos.filter (fun todo => !(todo.completed.getD false)) else todos

/-- The five task mutations of the source, with the interactive inputs of
each handler as parameters. -/
inductive TodoMutation
  | add (now : Nat) (createdAt : String) (inputTitle inputDetail : String) (category : Category)
  | saveEdit (editingTodo : Nat) (editTitle editDetail : String) (editCategory : Category)
  | toggleComplete (id : Nat)
  | deleteTodo (id : Nat) (confirm : Bool)
  | deleteAllCompleted (confirm : Bool)
  deriving DecidableEq, Repr

/-- Apply one task mutation to the in-memory todo list. -/
def applyTodoMutation : TodoMutation → List Todo → List Todo
  | .add now createdAt t d c, todos => addTodoList todos now createdAt t d c
  | .saveEdit e t d c, todos => saveEditList todos e t d c
  | .toggleComplete id, todos => toggleComplete todos id
  | .deleteTodo id confirm, todos => SecureTodo.deleteTodo todos id confirm
  | .deleteAllCompleted confirm, todos => deleteAllCompletedList todos confirm

/-- The in-memory todo list together with the persistent store's 'todos'
key (absent = `none`). -/
structure PersistState where
  todos : List Todo
  storedTodos : Option (List Todo)
  deriving DecidableEq, Repr

/-- One task mutation followed by the persistence useEffect of src/App.tsx:
the effect writes the new list to the 'todos' key only when the list is
non-empty (`if (todos.length > 0)`), otherwise the key keeps its previous
value. -/
def persistStep (p : PersistState) (m : TodoMutation) : PersistState :=
  let t := applyTodoMutation m p.todos
  { todos := t, storedTodos := if t.length > 0 then some t else p.storedTodos }

/-- The load-on-init effect of src/App.tsx restricted to the 'todos' key:
parse the stored list when the key is present, otherwise keep the default
empty list. -/
def loadTodos (stored : Option (List Todo)) : List Todo := stored.getD []

/-! Concrete fixtures used by witnesses and counterexamples. -/

/-- A task with both optional fields explicitly set. -/
def todoA : Todo :=
  { id := 1, title := "buy milk", detail := "", category := .other,
    createdAt := "2020-01-01T00:00:00.000Z", showDetail := some false,
    completed := some false }

/-- A task whose optional `completed` field is absent, as for a task
persisted before the completion feature existed. -/
def todoNone : Todo :=
  { id := 1, title := "old task", detail := "", category := .other,
    createdAt := "2020-01-01T00:00:00.000Z" }

/-- A home zone whose center is the origin. -/
def zHome : Location := ⟨1, "my house", 0, 0, 100, .home⟩

/-- A school zone with the same center as zHome. -/
def zSchool : Location := ⟨2, "my school", 0, 0, 100, .school⟩

/-- Oracle of a run in which the platform's WebAuthn registration succeeds. -/
def oRegister : AuthOracle :=
  { webAuthnAvailable := true, createResult := some true, getResult := none,
    confirmSimple := false, confirmRetry := false, confirmFinal := false }

/-- Oracle of a run in which the platform's WebAuthn assertion succeeds. -/
def oVerify : AuthOracle :=
  { webAuthnAvailable := true, createResult := none, getResult := some true,
    confirmSimple := false, confirmRetry := false, confirmFinal := false }

/-- Oracle of a run with WebAuthn unavailable and the user accepting the
simple confirm fallback. -/
def oFallbackYes : AuthOracle :=
  { webAuthnAvailable := false, createResult := none, getResult := none,
    confirmSimple := true, confirmRetry := false, confirmFinal := false }

/-- Oracle of a run in which every platform call and every confirm fails. -/
def oDenyAll : AuthOracle :=
  { webAuthnAvailable := false, createResult := none, getResult := none,
    confirmSimple := false, confirmRetry := false, confirmFinal := false }

/-! Helper lemmas. -/

lemma haversineA_symm (lat1 lon1 lat2 lon2 : ℝ) :
    haversineA lat1 lon1 lat2 lon2 = haversineA lat2 lon2 lat1 lon1 := by
  unfold haversineA
  have h1 : (lat1 - lat2) * Real.pi / 180 / 2 = -((lat2 - lat1) * Real.pi / 180 / 2) := by ring
  have h2 : (lon1 - lon2) * Real.pi / 180 / 2 = -((lon2 - lon1) * Real.pi / 180 / 2) := by ring
  rw [h1, h2]
  simp only [Real.sin_neg]
  ring

lemma haversineA_self (lat lon : ℝ) : haversineA lat lon lat lon = 0 := by
  unfold haversineA
  simp

lemma calculateDistance_self (lat lon : ℝ) : calculateDistance lat lon lat lon = 0 := by
  unfold calculateDistance atan2
  rw [haversineA_self]
  norm_num

lemma zoneContains_center (lat lon : ℝ) (i : Nat) (nm : String) (r : ℝ)
    (ty : LocationType) (hr : 0 ≤ r) :
    zoneContains lat lon ⟨i, nm, lat, lon, r, ty⟩ := by
  show calculateDistance lat lon lat lon ≤ r
  rw [calculateDistance_self]
  exact hr

lemma toStatus_ne_outside (t : LocationType) : t.toStatus ≠ LocationStatus.outside := by
  cases t <;> simp [LocationType.toStatus]

lemma toStatus_inj {t1 t2 : LocationType} (h : t1.toStatus = t2.toStatus) : t1 = t2 := by
  cases t1 <;> cases t2 <;> simp_all [LocationType.toStatus]

lemma resolveStatus_outside_iff (lat lon : ℝ) (Z : List Location) :
    resolveStatus lat lon Z = .outside ↔ ∀ z ∈ Z, ¬ zoneContains lat lon z := by
  induction Z with
  | nil => simp [resolveStatus]
  | cons z rest ih =>
    by_cases h : zoneContains lat lon z
    · rw [resolveStatus, if_pos h]
      simp only [List.mem_cons]
      constructor
      · intro habs
        exact absurd habs (toStatus_ne_outside z.type)
      · intro hall
        exact absurd h (hall z (Or.inl rfl))
    · rw [resolveStatus, if_neg h, ih]
      constructor
      · intro hall w hw
        rcases List.mem_cons.mp hw with hw | hw
        · exact hw ▸ h
        · exact hall w hw
      · intro hall w hw
        exact hall w (List.mem_cons_of_mem z hw)

lemma resolveStatus_first (lat lon : ℝ) (pre post : List Location) (z : Location)
    (hpre : ∀ w ∈ pre, ¬ zoneContains lat lon w) (hz : zoneContains lat lon z) :
    resolveStatus lat lon (pre ++ z :: post) = z.type.toStatus := by
  induction pre with
  | nil =>
    rw [List.nil_append, resolveStatus, if_pos hz]
  | cons w ws ih =>
    rw [List.cons_append, resolveStatus, if_neg (hpre w (List.mem_cons_self w ws))]
    exact ih (fun u hu => hpre u (List.mem_cons_of_mem w hu))

/-! Claim theorems. -/

/-- C9: calculateDistance is symmetric in its two coordinate arguments and
zero for coincident points; as a Lean function over ℝ it is total by
construction (no error conditions). -/
theorem c9_calculateDistance_symm_self (lat1 lon1 lat2 lon2 lat lon : ℝ) :
    calculateDistance lat1 lon1 lat2 lon2 = calculateDistance lat2 lon2 lat1 lon1
    ∧ calculateDistance lat lon lat lon = 0 := by
  refine ⟨?_, calculateDistance_self lat lon⟩
  unfold calculateDistance
  rw [haversineA_symm]

/-- C1: isTaskVisible computes exactly the specified truth table: private
mode dominates; otherwise Home shows everything, School shows school and
other, Work shows work and other, Outside shows only other. -/
theorem c1_isTaskVisible_table (p : Bool) (s : LocationStatus) (t : Todo) :
    isTaskVisible p s t = true ↔
      (p = true
        ∨ s = .home
        ∨ (s = .school ∧ (t.category = .school ∨ t.category = .other))
        ∨ (s = .work ∧ (t.category = .work ∨ t.category = .other))
        ∨ (s = .outside ∧ t.category = .other)) := by
  cases p <;> cases s <;> cases hc : t.category <;> simp [isTaskVisible, hc]

/-- C5 (code_bug evidence): the Boolean outcome of performBiometricAuth does
not distinguish the two assurance levels: a run that succeeds through the
WebAuthn assertion and a run that succeeds only through the low-assurance
confirm fallback both return the same value true to the caller. -/
theorem c5_outcome_not_distinguishing :
    (performBiometricAuth false true true oVerify).usedStrong = true
    ∧ (performBiometricAuth false false false oFallbackYes).usedStrong = false
    ∧ (performBiometricAuth false true true oVerify).result = true
    ∧ (performBiometricAuth false false false oFallbackYes).result = true
    ∧ (performBiometricAuth false true true oVerify).result
        = (performBiometricAuth false false false oFallbackYes).result := by
  decide

/-- C3 (code_bug evidence): from the initial state, register a WebAuthn
credential, enable private mode through a successful verification, then run
the credential-reset handler: the resulting reachable state has the
credential removed and biometric disabled but privateMode still true, so the
claimed invariant fails and reset does not force privateMode to false. -/
theorem c3_reset_keeps_privateMode :
    (run initState [.enableBiometric oRegister, .togglePrivateMode oVerify,
        .resetCredential true]).privateMode = true
    ∧ (run initState [.enableBiometric oRegister, .togglePrivateMode oVerify,
        .resetCredential true]).credentialIdStored = false
    ∧ (run initState [.enableBiometric oRegister, .togglePrivateMode oVerify,
        .resetCredential true]).biometricEnabled = false := by
  refine ⟨rfl, rfl, rfl⟩

/-- C2: the resolver returns the kind of the first zone in store order that
contains the coordinate; it returns outside iff no zone contains it; for two
overlapping zones of different kinds both containing the coordinate, the
result is the kind of the earlier zone, and swapping the two zones changes
the result. -/
theorem c2_resolveStatus_first_match (lat lon : ℝ) (Z pre post rest : List Location)
    (z z1 z2 : Location)
    (hpre : ∀ w ∈ pre, ¬ zoneContains lat lon w) (hz : zoneContains lat lon z)
    (h1 : zoneContains lat lon z1) (h2 : zoneContains lat lon z2)
    (hne : z1.type ≠ z2.type) :
    resolveStatus lat lon (pre ++ z :: post) = z.type.toStatus
    ∧ (resolveStatus lat lon Z = .outside ↔ ∀ w ∈ Z, ¬ zoneContains lat lon w)
    ∧ resolveStatus lat lon (z1 :: z2 :: rest) = z1.type.toStatus
    ∧ resolveStatus lat lon (z2 :: z1 :: rest) = z2.type.toStatus
    ∧ resolveStatus lat lon (z1 :: z2 :: rest) ≠ resolveStatus lat lon (z2 :: z1 :: rest) := by
  have e1 : resolveStatus lat lon (z1 :: z2 :: rest) = z1.type.toStatus := by
    rw [resolveStatus, if_pos h1]
  have e2 : resolveStatus lat lon (z2 :: z1 :: rest) = z2.type.toStatus := by
    rw [resolveStatus, if_pos h2]
  refine ⟨resolveStatus_first lat lon pre post z hpre hz,
    resolveStatus_outside_iff lat lon Z, e1, e2, ?_⟩
  rw [e1, e2]
  exact fun h => hne (toStatus_inj h)

/-- Witness for C2 at a concrete input: the coordinate (0,0) with the home
zone first is resolved to home. -/
theorem c2_witness :
    resolveStatus 0 0 ([] ++ zHome :: []) = zHome.type.toStatus :=
  (c2_resolveStatus_first_match 0 0 [] [] [] [] zHome zHome zSchool
    (by intro w hw; cases hw)
    (zoneContains_center 0 0 1 "my house" 100 .home (by norm_num))
    (zoneContains_center 0 0 1 "my house" 100 .home (by norm_num))
    (zoneContains_center 0 0 2 "my school" 100 .school (by norm_num))
    (by decide)).1

lemma applyAuthSideEffects_todos (s : AppState) (t : AuthTrace) :
    (applyAuthSideEffects s t).todos = s.todos := by
  unfold applyAuthSideEffects
  split <;> rfl

lemma applyAuthSideEffects_locations (s : AppState) (t : AuthTrace) :
    (applyAuthSideEffects s t).registeredLocations = s.registeredLocations := by
  unfold applyAuthSideEffects
  split <;> rfl

lemma applyAuthSideEffects_privateMode (s : AppState) (t : AuthTrace) :
    (applyAuthSideEffects s t).privateMode = s.privateMode := by
  unfold applyAuthSideEffects
  split <;> rfl

lemma applyAuthSideEffects_biometricEnabled (s : AppState) (t : AuthTrace) :
    (applyAuthSideEffects s t).biometricEnabled = s.biometricEnabled := by
  unfold applyAuthSideEffects
  split <;> rfl

/-- C4: when verification fails or no credential is registered (biometric
not enabled), each guarded operation (enable private mode, register a zone,
delete a zone) leaves the task store, the zone store and the private-mode
flag unchanged; in particular with biometric never enabled, a private-mode
request is routed to the settings page and privateMode remains false. -/
theorem c4_guard_failure_frame (s : AppState) (o : AuthOracle)
    (c : Option (ℝ × ℝ)) (nm : String) (lt : LocationType) (rad : ℝ) (now lid : Nat)
    (hpm : s.privateMode = false)
    (hfail : s.biometricEnabled = false ∨
      (performBiometricAuth false s.credentialIdStored s.rawIdStored o).result = false) :
    ((togglePrivateMode s o).todos = s.todos
      ∧ (togglePrivateMode s o).registeredLocations = s.registeredLocations
      ∧ (togglePrivateMode s o).privateMode = false)
    ∧ ((registerCurrentLocation s c nm lt rad now o).todos = s.todos
      ∧ (registerCurrentLocation s c nm lt rad now o).registeredLocations
          = s.registeredLocations
      ∧ (registerCurrentLocation s c nm lt rad now o).privateMode = s.privateMode)
    ∧ ((deleteLocation s lid o).todos = s.todos
      ∧ (deleteLocation s lid o).registeredLocations = s.registeredLocations
      ∧ (deleteLocation s lid o).privateMode = s.privateMode)
    ∧ (s.biometricEnabled = false →
        (togglePrivateMode s o).currentPage = PageType.settings) := by
  have htog : (togglePrivateMode s o).todos = s.todos
      ∧ (togglePrivateMode s o).registeredLocations = s.registeredLocations
      ∧ (togglePrivateMode s o).privateMode = false := by
    unfold togglePrivateMode
    rcases hfail with hb | hf
    · simp [hpm, hb]
    · by_cases hb : s.biometricEnabled
      · simp [hpm, hb, hf, applyAuthSideEffects_todos, applyAuthSideEffects_locations,
          applyAuthSideEffects_privateMode]
      · simp [hpm, hb]
  have hreg : (registerCurrentLocation s c nm lt rad now o).todos = s.todos
      ∧ (registerCurrentLocation s c nm lt rad now o).registeredLocations
          = s.registeredLocations
      ∧ (registerCurrentLocation s c nm lt rad now o).privateMode = s.privateMode := by
    unfold registerCurrentLocation
    cases c with
    | none => exact ⟨rfl, rfl, rfl⟩
    | some cc =>
      by_cases hn : nm = ""
      · simp [hn]
      · rcases hfail with hb | hf
        · simp [hn, hb]
        · by_cases hb : s.biometricEnabled
          · simp [hn, hb, hf, applyAuthSideEffects_todos, applyAuthSideEffects_locations,
              applyAuthSideEffects_privateMode]
          · simp [hn, hb]
  have hdel : (deleteLocation s lid o).todos = s.todos
      ∧ (deleteLocation s lid o).registeredLocations = s.registeredLocations
      ∧ (deleteLocation s lid o).privateMode = s.privateMode := by
    unfold deleteLocation
    rcases hfail with hb | hf
    · simp [hb]
    · by_cases hb : s.biometricEnabled
      · simp [hb, hf, applyAuthSideEffects_todos, applyAuthSideEffects_locations,
          applyAuthSideEffects_privateMode]
      · simp [hb]
  refine ⟨htog, hreg, hdel, ?_⟩
  intro hb
  unfold togglePrivateMode
  simp [hpm, hb]

/-- Witness for C4 at a concrete input: in the initial state (biometric never
enabled) a private-mode request changes none of the three stores and routes
to the settings page. -/
theorem c4_witness :
    ((togglePrivateMode initState oDenyAll).todos = initState.todos
      ∧ (togglePrivateMode initState oDenyAll).registeredLocations
          = initState.registeredLocations
      ∧ (togglePrivateMode initState oDenyAll).privateMode = false)
    ∧ ((registerCurrentLocation initState none "" .home 0 0 oDenyAll).todos = initState.todos
      ∧ (registerCurrentLocation initState none "" .home 0 0 oDenyAll).registeredLocations
          = initState.registeredLocations
      ∧ (registerCurrentLocation initState none "" .home 0 0 oDenyAll).privateMode
          = initState.privateMode)
    ∧ ((deleteLocation initState 0 oDenyAll).todos = initState.todos
      ∧ (deleteLocation initState 0 oDenyAll).registeredLocations
          = initState.registeredLocations
      ∧ (deleteLocation initState 0 oDenyAll).privateMode = initState.privateMode)
    ∧ (initState.biometricEnabled = false →
        (togglePrivateMode initState oDenyAll).currentPage = PageType.settings) :=
  c4_guard_failure_frame initState oDenyAll none "" .home 0 0 0 rfl (Or.inl rfl)

/-- C6 counterexample: with one persisted task, deleting it (a confirmed
deleteTodo) empties the in-memory list, but the persistence effect skips
empty lists, so the 'todos' key keeps the old contents and a reload does not
reproduce the in-memory (empty) list. -/
theorem c6_counterexample :
    loadTodos (persistStep ⟨[todoA], some [todoA]⟩ (.deleteTodo 1 true)).storedTodos
      ≠ (persistStep ⟨[todoA], some [todoA]⟩ (.deleteTodo 1 true)).todos := by
  decide

/-- C6 amended: after every task mutation whose result is non-empty,
reloading the 'todos' key reproduces the in-memory list; a mutation that
empties the list leaves the key at its previous value (so a reload then
resurrects the old contents). -/
theorem c6_persist_reload (p : PersistState) (m : TodoMutation) :
    ((persistStep p m).todos ≠ [] →
      loadTodos (persistStep p m).storedTodos = (persistStep p m).todos)
    ∧ ((persistStep p m).todos = [] → (persistStep p m).storedTodos = p.storedTodos) := by
  unfold persistStep loadTodos
  constructor
  · intro h
    have hlen : (applyTodoMutation m p.todos).length > 0 := by
      simpa [List.length_pos] using h
    simp [hlen]
  · intro h
    have hlen : ¬ (applyTodoMutation m p.todos).length > 0 := by
      simp only [gt_iff_lt, List.length_pos]
      simpa using h
    simp [hlen]

/-- Witness for C6 at a concrete input: toggling the completion of the one
stored task persists the new list, and the reload reproduces it. -/
theorem c6_witness :
    loadTodos (persistStep ⟨[todoA], some [todoA]⟩ (.toggleComplete 1)).storedTodos
      = (persistStep ⟨[todoA], some [todoA]⟩ (.toggleComplete 1)).todos :=
  (c6_persist_reload ⟨[todoA], some [todoA]⟩ (.toggleComplete 1)).1 (by decide)

lemma getHidden_foldl (p : Bool) (s : LocationStatus) (todos : List Todo)
    (m : Category → Nat) (c : Category) :
    (todos.foldl
      (fun counts todo =>
        if isTaskVisible p s todo then counts else bump todo.category counts) m) c
      = m c + (todos.filter (fun t => !(isTaskVisible p s t) && t.category == c)).length := by
  induction todos generalizing m with
  | nil => simp
  | cons t rest ih =>
    rw [List.foldl_cons, List.filter_cons]
    by_cases hv : isTaskVisible p s t
    · rw [if_pos hv, ih]
      simp [hv]
    · have hv' : isTaskVisible p s t = false := by simpa using hv
      rw [if_neg hv, ih]
      by_cases hc : t.category = c
      · simp [hv', hc, bump]
        omega
      · have hbc : (t.category == c) = false := by simpa using hc
        have hcs : ¬ c = t.category := fun h => hc h.symm
        simp [hv', hbc, bump, hcs]

lemma hidden_filter_sum (p : Bool) (s : LocationStatus) (todos : List Todo) :
    (todos.filter (fun t => !(isTaskVisible p s t) && t.category == Category.personal)).length
    + (todos.filter (fun t => !(isTaskVisible p s t) && t.category == Category.school)).length
    + (todos.filter (fun t => !(isTaskVisible p s t) && t.category == Category.work)).length
    + (todos.filter (fun t => !(isTaskVisible p s t) && t.category == Category.other)).length
    = todos.length - (todos.filter (fun t => isTaskVisible p s t)).length := by
  induction todos with
  | nil => simp
  | cons t rest ih =>
    have hle := List.length_filter_le (fun t => isTaskVisible p s t) rest
    by_cases hv : isTaskVisible p s t
    · simp only [List.filter_cons, hv, Bool.not_true, Bool.false_and, if_false,
        if_true, List.length_cons, Bool.false_eq_true]
      simp only [List.length_cons] at *
      omega
    · cases hcat : t.category <;>
        simp only [List.filter_cons, hv, hcat, Bool.not_false, Bool.true_and,
          beq_self_eq_true, if_true, List.length_cons, Bool.false_eq_true, if_false] <;>
        simp <;> omega

/-- C7: getHiddenTasksCount maps each category to the number of tasks of that
category that are not visible; the four counts sum to the total task count
minus the visible count; and with the state Outside and private mode off the
sum equals the total minus the number of Other-category tasks. -/
theorem c7_hiddenCounts (p : Bool) (s : LocationStatus) (todos : List Todo) :
    (∀ c, getHiddenTasksCount p s todos c
        = (todos.filter (fun t => !(isTaskVisible p s t) && t.category == c)).length)
    ∧ (getHiddenTasksCount p s todos .personal + getHiddenTasksCount p s todos .school
        + getHiddenTasksCount p s todos .work + getHiddenTasksCount p s todos .other
      = todos.length - (todos.filter (fun t => isTaskVisible p s t)).length)
    ∧ (getHiddenTasksCount false .outside todos .personal
        + getHiddenTasksCount false .outside todos .school
        + getHiddenTasksCount false .outside todos .work
        + getHiddenTasksCount false .outside todos .other
      = todos.length - (todos.filter (fun t => t.category == Category.other)).length) := by
  have hpt : ∀ (p : Bool) (s : LocationStatus) (c : Category),
      getHiddenTasksCount p s todos c
        = (todos.filter (fun t => !(isTaskVisible p s t) && t.category == c)).length := by
    intro p s c
    unfold getHiddenTasksCount
    rw [getHidden_foldl]
    simp
  have hsum : ∀ (p : Bool) (s : LocationStatus),
      getHiddenTasksCount p s todos .personal + getHiddenTasksCount p s todos .school
        + getHiddenTasksCount p s todos .work + getHiddenTasksCount p s todos .other
      = todos.length - (todos.filter (fun t => isTaskVisible p s t)).length := by
    intro p s
    rw [hpt p s .personal, hpt p s .school, hpt p s .work, hpt p s .other]
    exact hidden_filter_sum p s todos
  refine ⟨hpt p s, hsum p s, ?_⟩
  have hfe : todos.filter (fun t => isTaskVisible false .outside t)
      = todos.filter (fun t => t.category == Category.other) :=
    List.filter_congr (fun t _ => rfl)
  rw [hsum false .outside, hfe]

lemma performBiometricAuth_nonsetup_nostore (cs rs : Bool) (o : AuthOracle) :
    (performBiometricAuth false cs rs o).storesCredential = false := by
  unfold performBiometricAuth
  rcases o with ⟨wa, cr, gr, c1, c2, c3⟩
  rcases gr with _ | b
  · cases wa <;> cases cs <;> cases rs <;> rfl
  · cases b <;> cases wa <;> cases cs <;> cases rs <;> rfl

lemma applyAuthSideEffects_nonsetup (s : AppState) (cs rs : Bool) (o : AuthOracle) :
    applyAuthSideEffects s (performBiometricAuth false cs rs o) = s := by
  unfold applyAuthSideEffects
  rw [performBiometricAuth_nonsetup_nostore]
  rfl

lemma filter_idem {α : Type} (p : α → Bool) (l : List α) :
    (l.filter p).filter p = l.filter p := by
  rw [List.filter_filter]
  simp

lemma filter_ne_of_not_mem {α : Type} (f : α → Nat) (l : List α) (id : Nat)
    (h : id ∉ l.map f) : l.filter (fun t => f t != id) = l := by
  apply List.filter_eq_self.mpr
  intro t ht
  simp only [bne_iff_ne, ne_eq]
  intro he
  exact h (he ▸ List.mem_map_of_mem f ht)

lemma deleteLocation_eq (s : AppState) (id : Nat) (o : AuthOracle) :
    deleteLocation s id o =
      if s.biometricEnabled then
        if (performBiometricAuth false s.credentialIdStored s.rawIdStored o).result then
          { s with registeredLocations :=
              s.registeredLocations.filter (fun loc => loc.id != id) }
        else s
      else { s with currentPage := .settings } := by
  simp only [deleteLocation, applyAuthSideEffects_nonsetup]

/-- C8: deletion is idempotent and deletion of an absent id is a no-op, both
for the task store (deleteTodo) and for the zone store (deleteLocation). -/
theorem c8_remove_idempotent (todos : List Todo) (s : AppState) (i j lid ljd : Nat)
    (confirm : Bool) (o : AuthOracle)
    (hj : j ∉ todos.map Todo.id) (hlj : ljd ∉ s.registeredLocations.map Location.id) :
    deleteTodo (deleteTodo todos i confirm) i confirm = deleteTodo todos i confirm
    ∧ deleteTodo todos j confirm = todos
    ∧ (deleteLocation (deleteLocation s lid o) lid o).registeredLocations
        = (deleteLocation s lid o).registeredLocations
    ∧ (deleteLocation s ljd o).registeredLocations = s.registeredLocations := by
  refine ⟨?_, ?_, ?_, ?_⟩
  · cases confirm
    · rfl
    · unfold deleteTodo
      simp [filter_idem]
  · cases confirm
    · rfl
    · unfold deleteTodo
      simp only [if_true]
      exact filter_ne_of_not_mem Todo.id todos j hj
  · by_cases hb : s.biometricEnabled = true
    · by_cases hr :
        (performBiometricAuth false s.credentialIdStored s.rawIdStored o).result = true
      · rw [deleteLocation_eq s lid o, if_pos hb, if_pos hr, deleteLocation_eq]
        simp [hb, hr, filter_idem]
      · rw [deleteLocation_eq s lid o, if_pos hb, if_neg hr, deleteLocation_eq,
          if_pos hb, if_neg hr]
    · rw [deleteLocation_eq s lid o, if_neg hb, deleteLocation_eq]
      simp [hb]
  · by_cases hb : s.biometricEnabled = true
    · by_cases hr :
        (performBiometricAuth false s.credentialIdStored s.rawIdStored o).result = true
      · rw [deleteLocation_eq, if_pos hb, if_pos hr]
        exact filter_ne_of_not_mem Location.id s.registeredLocations ljd hlj
      · rw [deleteLocation_eq, if_pos hb, if_neg hr]
    · rw [deleteLocation_eq, if_neg hb]

/-- Witness for C8 at a concrete input: removing id 2 from the one-task store
twice equals removing it once, removal of the absent id 2 is a no-op, and the
same holds for the empty zone store. -/
theorem c8_witness :
    deleteTodo (deleteTodo [todoA] 2 true) 2 true = deleteTodo [todoA] 2 true
    ∧ deleteTodo [todoA] 2 true = [todoA]
    ∧ (deleteLocation (deleteLocation initState 2 oDenyAll) 2 oDenyAll).registeredLocations
        = (deleteLocation initState 2 oDenyAll).registeredLocations
    ∧ (deleteLocation initState 2 oDenyAll).registeredLocations
        = initState.registeredLocations :=
  c8_remove_idempotent [todoA] initState 2 2 2 2 true oDenyAll (by decide) (by decide)

/-- C10 counterexample: for a task whose optional completed field is absent,
the source's `!todo.completed` coerces undefined to false, so two toggles end
with completed explicitly false rather than the original absent value: the
double toggle does not restore the original list. -/
theorem c10_counterexample :
    toggleComplete (toggleComplete [todoNone] 1) 1 ≠ [todoNone] := by
  decide

/-- C10 amended: toggleComplete preserves length and order, leaves every
non-matching task unchanged, changes only the completed field of the matching
task (to the negation of its coerced value), and applying it twice restores
the original list provided every matching task has its completed field
explicitly set (a matching task with the field absent instead ends with
completed explicitly equal to false). -/
theorem c10_toggleComplete_frame (todos : List Todo) (id : Nat)
    (hdef : ∀ t ∈ todos, t.id = id → t.completed ≠ none) :
    (toggleComplete todos id).length = todos.length
    ∧ (∀ (i : Nat) (h1 : i < todos.length) (h2 : i < (toggleComplete todos id).length),
        (todos[i].id ≠ id → (toggleComplete todos id)[i] = todos[i])
        ∧ (todos[i].id = id →
            ((toggleComplete todos id)[i]).id = todos[i].id
            ∧ ((toggleComplete todos id)[i]).title = todos[i].title
            ∧ ((toggleComplete todos id)[i]).detail = todos[i].detail
            ∧ ((toggleComplete todos id)[i]).category = todos[i].category
            ∧ ((toggleComplete todos id)[i]).createdAt = todos[i].createdAt
            ∧ ((toggleComplete todos id)[i]).showDetail = todos[i].showDetail
            ∧ ((toggleComplete todos id)[i]).completed
                = some (!(todos[i].completed.getD false))))
    ∧ toggleComplete (toggleComplete todos id) id = todos := by
  refine ⟨List.length_map todos _, ?_, ?_⟩
  · intro i h1 h2
    have hg : (toggleComplete todos id)[i] =
        (if todos[i].id = id then
          { todos[i] with completed := some (!(todos[i].completed.getD false)) }
        else todos[i]) := by
      simp [toggleComplete]
    constructor
    · intro hne
      rw [hg, if_neg hne]
    · intro heq
      rw [hg, if_pos heq]
      exact ⟨rfl, rfl, rfl, rfl, rfl, rfl, rfl⟩
  · revert hdef
    induction todos with
    | nil => intro _; rfl
    | cons t rest ih =>
      intro hd
      have hrest := ih (fun u hu => hd u (List.mem_cons_of_mem t hu))
      by_cases ht : t.id = id
      · rcases Option.ne_none_iff_exists'.mp (hd t (List.mem_cons_self t rest) ht) with ⟨b, hb⟩
        show toggleComplete
            ((if t.id = id then
                { t with completed := some (!(t.completed.getD false)) }
              else t) :: toggleComplete rest id) id = t :: rest
        rw [if_pos ht]
        show (if t.id = id then _ else _) :: toggleComplete (toggleComplete rest id) id
            = t :: rest
        rw [if_pos ht, hrest]
        congr 1
        simp [hb]
        rw [← hb]
      · show toggleComplete
            ((if t.id = id then
                { t with completed := some (!(t.completed.getD false)) }
              else t) :: toggleComplete rest id) id = t :: rest
        rw [if_neg ht]
        show (if t.id = id then _ else _) :: toggleComplete (toggleComplete rest id) id
            = t :: rest
        rw [if_neg ht, hrest]

/-- Witness for C10 at a concrete input: for a one-task store whose completed
field is explicitly false, toggling completion twice restores the store. -/
theorem c10_witness :
    toggleComplete (toggleComplete [todoA] 1) 1 = [todoA] :=
  (c10_toggleComplete_frame [todoA] 1 (by decide)).2.2

end SecureTodo
